import Mathlib

/-!
Verification development for the libideviceactivation activation engine
(src/src/activation.c and the activation loop of src/tools/ideviceactivation.c).

The C code is shallowly embedded: the plist values handled through libplist
are modelled by the inductive `Plist`, XML documents handled through libxml2
by `XmlNode`, and the results of the external parsing libraries
(plist_from_xml, xmlReadMemory, htmlNodeDump) are supplied as explicit
inputs, since those libraries are external dependencies of the repository.
C byte strings are modelled as `List Nat` where the byte values matter
(percent encoding) and as `String` elsewhere.
-/

set_option maxRecDepth 4096

/-- Error codes of idevice_activation_error_t (libideviceactivation.h). -/
inductive IdeviceActivationError where
  | success
  | incompleteInfo
  | outOfMemory
  | unknownContentType
  | buddymlParsingError
  | plistParsingError
  | htmlParsingError
  | unsupportedFieldType
  | internalError
deriving DecidableEq, Repr

/-- idevice_activation_content_type_t (activation.c lines 59-66).
The one enum is used both for request encodings and response dialects,
exactly as in the source. -/
inductive IdeviceActivationContentType where
  | urlEncoded
  | multipartFormdata
  | html
  | buddyml
  | plist
  | unknown
deriving DecidableEq, Repr

/-- idevice_activation_client_type_t (libideviceactivation.h). -/
inductive IdeviceActivationClientType where
  | mobileActivation
  | itunes
deriving DecidableEq, Repr

/-- Model of the libplist plist_t node kinds this code manipulates:
strings, booleans, integers, data blobs (held as a String standing for the
raw byte buffer) and dictionaries in insertion order. The remaining
libplist node kinds play no role in the claims; any non-string constructor
exercises the non-string code paths uniformly, as the C does through
plist_get_node_type. -/
inductive Plist where
  | string (s : String)
  | boolean (b : Bool)
  | integer (n : Nat)
  | data (d : String)
  | dict (entries : List (String × Plist))

/-- First-match lookup in a dict entry list (libplist stores one node per
key; plist_dict_set_item keeps keys unique). -/
def dict_lookup (k : String) : List (String × Plist) → Option Plist
  | [] => none
  | (k2, v) :: rest => if k2 = k then some v else dict_lookup k rest

/-- plist_dict_get_item: dictionary lookup, NULL (none) on a non-dict node
or a missing key. -/
def plist_dict_get_item (p : Plist) (k : String) : Option Plist :=
  match p with
  | .dict es => dict_lookup k es
  | _ => none

/-- Insert or replace an entry, keeping the position of a replaced key. -/
def dict_insert (k : String) (v : Plist) : List (String × Plist) → List (String × Plist)
  | [] => [(k, v)]
  | (k2, v2) :: rest => if k2 = k then (k2, v) :: rest else (k2, v2) :: dict_insert k v rest

/-- plist_dict_set_item: set a key on a dict node; no effect on other nodes. -/
def plist_dict_set_item (p : Plist) (k : String) (v : Plist) : Plist :=
  match p with
  | .dict es => .dict (dict_insert k v es)
  | _ => p

/-- plist_dict_get_size: number of entries of a dict node, 0 otherwise. -/
def plist_dict_get_size (p : Plist) : Nat :=
  match p with
  | .dict es => es.length
  | _ => 0

/-- The entry list of a dict node, as iterated by plist_dict_new_iter /
plist_dict_next_item (insertion order); empty for non-dict nodes. -/
def dict_entries (p : Plist) : List (String × Plist) :=
  match p with
  | .dict es => es
  | _ => []

/-- plist_dict_merge: copy every entry of the source dict into the target
dict (insertion or in-place replacement per key); no effect unless both
nodes are dicts. -/
def plist_dict_merge (target source : Plist) : Plist :=
  match target, source with
  | .dict _, .dict es => es.foldl (fun t kv => plist_dict_set_item t kv.1 kv.2) target
  | _, _ => target

/-- plist_get_node_type(node) == PLIST_STRING. -/
def plist_is_string : Plist → Bool
  | .string _ => true
  | _ => false

/-- plist_get_bool_val writes into a variable initialised to 0 and only
assigns for a boolean node, so a non-boolean node reads as false
(activation.c lines 177-179). -/
def plist_get_bool_val : Plist → Bool
  | .boolean b => b
  | _ => false

/-- idevice_activation_response_private (activation.c lines 75-91).
raw_content is the byte buffer accumulated by the write callback; the
auxiliary dicts mirror the plist_t members one-to-one. -/
structure Response where
  raw_content : String
  content_type : IdeviceActivationContentType
  title : Option String
  description : Option String
  activation_record : Option Plist
  headers : Plist
  fields : Plist
  fields_require_input : Plist
  fields_secure_input : Plist
  labels : Plist
  labels_placeholder : Plist
  is_activation_ack : Bool
  is_auth_required : Bool
  has_errors : Bool

/-- idevice_activation_response_new (activation.c lines 984-1013). -/
def idevice_activation_response_new : Response :=
  { raw_content := ""
    content_type := .unknown
    title := none
    description := none
    activation_record := none
    headers := .dict []
    fields := .dict []
    fields_require_input := .dict []
    fields_secure_input := .dict []
    labels := .dict []
    labels_placeholder := .dict []
    is_activation_ack := false
    is_auth_required := false
    has_errors := false }

/-- idevice_activation_activation_record_from_plist (activation.c lines
171-206). Returns the error code together with the updated response, the
pair standing for the C function's return value and its in-place mutation
of the response. plist_new_data(raw_content, size) is modelled by
Plist.data of the raw content; plist_copy is the identity under value
semantics. -/
def idevice_activation_activation_record_from_plist (resp : Response) (p : Plist) :
    IdeviceActivationError × Response :=
  match plist_dict_get_item p ("ActivationRecord") with
  | some record =>
    let resp1 :=
      match plist_dict_get_item record ("ack-received") with
      | some ack => if plist_get_bool_val ack then { resp with is_activation_ack := true } else resp
      | none => resp
    (.success, { resp1 with activation_record := some (.data resp.raw_content) })
  | none =>
    let anode :=
      match plist_dict_get_item p ("iphone-activation") with
      | some n => some n
      | none => plist_dict_get_item p ("device-activation")
    match anode with
    | none => (.plistParsingError, resp)
    | some node =>
      let resp1 :=
        match plist_dict_get_item node ("ack-received") with
        | some ack => if plist_get_bool_val ack then { resp with is_activation_ack := true } else resp
        | none => resp
      match plist_dict_get_item node ("activation-record") with
      | some record => (.success, { resp1 with activation_record := some record })
      | none => (.success, resp1)

/-- idevice_activation_response_add_field (activation.c lines 208-217). -/
def idevice_activation_response_add_field (resp : Response) (key value : String)
    (required_input secure_input : Bool) : Response :=
  let resp := { resp with fields := plist_dict_set_item resp.fields key (.string value) }
  let resp :=
    if required_input then
      { resp with fields_require_input := plist_dict_set_item resp.fields_require_input key (.boolean true) }
    else resp
  if secure_input then
    { resp with fields_secure_input := plist_dict_set_item resp.fields_secure_input key (.boolean true) }
  else resp

/-- Model of the libxml2 element tree produced by xmlReadMemory: elements
with name, attributes in document order, and children; text nodes carry
their character data. -/
inductive XmlNode where
  | elem (name : String) (attrs : List (String × String)) (children : List XmlNode)
  | text (content : String)

/-- First-match lookup in an attribute list. -/
def dict_str_lookup (nm : String) : List (String × String) → Option String
  | [] => none
  | (k, v) :: rest => if k = nm then some v else dict_str_lookup nm rest

/-- xmlGetProp: first attribute with the given name. libxml2 returns the
attribute value even when it is empty (the NULL result of
xmlNodeListGetString is replaced by an empty string inside xmlGetProp). -/
def xml_get_prop (nm : String) : XmlNode → Option String
  | .text _ => none
  | .elem _ attrs _ => dict_str_lookup nm attrs

/-- xmlNodeListGetString applied to the children of an attribute node: an
attribute with an empty value has no text child in libxml2, so the call
returns NULL; a non-empty value is returned as is. -/
def attr_text (v : String) : Option String :=
  if v = ("") then none else some v

/-- xmlNodeListGetString applied to the children of an element: the direct
text children are concatenated; NULL when no text results. -/
def node_text : XmlNode → Option String
  | .text _ => none
  | .elem _ _ children =>
    let s := children.foldl (fun acc c => match c with | .text t => acc ++ t | _ => acc) ("")
    if s = ("") then none else some s

/-- Whether a node is an element with the given name. -/
def is_elem_named (nm : String) : XmlNode → Bool
  | .elem n _ _ => n = nm
  | .text _ => false

/-- The child::nm XPath step applied to a node set, in document order. -/
def xpath_child (nm : String) (ns : List XmlNode) : List XmlNode :=
  ns.flatMap fun n =>
    match n with
    | .elem _ _ children => children.filter (is_elem_named nm)
    | .text _ => []

/-- The node set selected by the absolute path /xmlui on a parsed document
with root element r. -/
def xml_roots (r : XmlNode) : List XmlNode :=
  if is_elem_named ("xmlui") r then [r] else []

/-- The descendant elements named nm of all nodes of a list, in document
order (the //nm step). -/
def desc_list_named (nm : String) : List XmlNode → List XmlNode
  | [] => []
  | .text _ :: rest => desc_list_named nm rest
  | .elem n2 a cs :: rest =>
    (if n2 = nm then [.elem n2 a cs] else []) ++ desc_list_named nm cs ++ desc_list_named nm rest

/-- Descendants named nm of a single node (children at any depth). -/
def descendants_named (nm : String) : XmlNode → List XmlNode
  | .text _ => []
  | .elem _ _ cs => desc_list_named nm cs

/-- The attribute values selected by /xmlui/navigationBar/@title, in
document order (activation.c line 244). -/
def nav_bar_title_values (root : XmlNode) : List String :=
  (xpath_child ("navigationBar") (xml_roots root)).filterMap (xml_get_prop ("title"))

/-- Whether /xmlui/clientInfo[@ack-received='true'] selects any node
(activation.c line 266). -/
def client_info_ack (root : XmlNode) : Bool :=
  (xpath_child ("clientInfo") (xml_roots root)).any
    (fun n => xml_get_prop ("ack-received") n == some ("true"))

/-- The attribute values selected by /xmlui/alert/@title (line 283). -/
def alert_title_values (root : XmlNode) : List String :=
  (xpath_child ("alert") (xml_roots root)).filterMap (xml_get_prop ("title"))

/-- The attribute values selected by /xmlui/page/navigationBar/@title
(line 302). -/
def page_nav_bar_title_values (root : XmlNode) : List String :=
  (xpath_child ("navigationBar") (xpath_child ("page") (xml_roots root))).filterMap
    (xml_get_prop ("title"))

/-- The nodes selected by /xmlui/page/tableView/section/footer[not (@url)]
(line 324). -/
def footer_nodes (root : XmlNode) : List XmlNode :=
  (xpath_child ("footer")
      (xpath_child ("section") (xpath_child ("tableView") (xpath_child ("page") (xml_roots root))))).filter
    (fun n => (xml_get_prop ("url") n).isNone)

/-- The nodes selected by /xmlui/page//editableTextRow (line 365). -/
def editable_text_rows (root : XmlNode) : List XmlNode :=
  desc_list_named ("editableTextRow") (xpath_child ("page") (xml_roots root))

/-- The attributes selected by /xmlui/serverInfo/@*, in document order
(line 410). xmlNodeGetContent of an attribute node is its value. -/
def server_info_attrs (root : XmlNode) : List (String × String) :=
  (xpath_child ("serverInfo") (xml_roots root)).flatMap fun n =>
    match n with
    | .elem _ attrs _ => attrs
    | .text _ => []

/-- The loop over editableTextRow nodes (activation.c lines 371-402): a
row without an id attribute aborts with BUDDYML_PARSING_ERROR; otherwise
the row becomes an empty-valued response field requiring input, secure
when the secure attribute is exactly "true", with optional label and
placeholder stored by id. -/
def process_editable_rows (resp : Response) : List XmlNode → IdeviceActivationError × Response
  | [] => (.success, resp)
  | row :: rest =>
    match xml_get_prop ("id") row with
    | none => (.buddymlParsingError, resp)
    | some id =>
      let secure_input := xml_get_prop ("secure") row == some ("true")
      let resp := idevice_activation_response_add_field resp id ("") true secure_input
      let resp :=
        match xml_get_prop ("label") row with
        | some l => { resp with labels := plist_dict_set_item resp.labels id (.string l) }
        | none => resp
      let resp :=
        match xml_get_prop ("placeholder") row with
        | some ph => { resp with labels_placeholder := plist_dict_set_item resp.labels_placeholder id (.string ph) }
        | none => resp
      process_editable_rows resp rest

/-- The loop over serverInfo attributes (activation.c lines 416-429): each
attribute becomes a response field not requiring input, and an attribute
named isAuthRequired additionally raises is_auth_required. -/
def process_server_info (resp : Response) : List (String × String) → Response
  | [] => resp
  | (nm, content) :: rest =>
    let resp := if nm = ("isAuthRequired") then { resp with is_auth_required := true } else resp
    process_server_info (idevice_activation_response_add_field resp nm content false false) rest

/-- The description extraction (activation.c lines 336-357): concatenate
the text of each matched footer followed by a newline, and keep the result
without its final newline when anything was collected. -/
def footer_description (root : XmlNode) : Option String :=
  let joined := (footer_nodes root).foldl
    (fun acc n => match node_text n with | some t => acc ++ t ++ ("\n") | none => acc) ("")
  if joined = ("") then none else some (joined.dropRight 1)

/-- The extraction phase that follows the title selection in
idevice_activation_parse_buddyml_response (activation.c lines 319-433):
description from the matched footers, then the editableTextRow fields,
then the serverInfo attributes, and finally the unknown-error flag when
no field was produced. -/
def buddyml_collect_fields (resp : Response) (root : XmlNode) :
    Except IdeviceActivationError Response :=
  let resp :=
    match footer_description root with
    | some d => { resp with description := some d }
    | none => resp
  match process_editable_rows resp (editable_text_rows root) with
  | (.success, resp) =>
    let resp := process_server_info resp (server_info_attrs root)
    if plist_dict_get_size resp.fields = 0 then
      .ok { resp with has_errors := true }
    else
      .ok resp
  | (e, _) => .error e

/-- idevice_activation_parse_buddyml_response (activation.c lines
219-444). The parsed document (xmlReadMemory on raw_content) is supplied
as input, none standing for a NULL document. On the path that evaluates
/xmlui/page/navigationBar/@title with an empty result, the C reads
nodeTab[0] of an empty node set (undefined behaviour in the source); that
path is modelled as BUDDYML_PARSING_ERROR, matching the error the
adjacent NULL-node-set check returns. -/
def idevice_activation_parse_buddyml_response (resp : Response) (doc : Option XmlNode) :
    Except IdeviceActivationError Response :=
  if resp.content_type ≠ IdeviceActivationContentType.buddyml then
    .error .unknownContentType
  else
    match doc with
    | none => .error .buddymlParsingError
    | some root =>
      match nav_bar_title_values root with
      | t :: _ =>
        let resp :=
          match attr_text t with
          | some s => { resp with title := some s }
          | none => resp
        .ok { resp with has_errors := true }
      | [] =>
        if client_info_ack root then
          .ok { resp with is_activation_ack := true }
        else
          match alert_title_values root with
          | t :: _ =>
            buddyml_collect_fields
              (match attr_text t with
               | some s => { resp with title := some s }
               | none => resp) root
          | [] =>
            match page_nav_bar_title_values root with
            | t :: _ =>
              buddyml_collect_fields
                (match attr_text t with
                 | some s => { resp with title := some s }
                 | none => resp) root
            | [] => .error .buddymlParsingError

/-- Whether //input[@name='isAuthRequired' and @value='true'] selects any
node (activation.c line 473). -/
def html_auth_required (root : XmlNode) : Bool :=
  (desc_list_named ("input") [root]).any fun n =>
    xml_get_prop ("name") n == some ("isAuthRequired") && xml_get_prop ("value") n == some ("true")

/-- The first node selected by //script[@type='text/x-apple-plist']/plist
(activation.c line 485). -/
def html_plist_node (root : XmlNode) : Option XmlNode :=
  (xpath_child ("plist")
      ((desc_list_named ("script") [root]).filter
        (fun n => xml_get_prop ("type") n == some ("text/x-apple-plist")))).head?

/-- idevice_activation_parse_html_response (activation.c lines 446-524).
The permissively parsed document is supplied as input (none for a NULL
document), and decode stands for the composition of htmlNodeDump and
plist_from_xml applied to the matched plist node; a none result is the
NULL-plist case, PLIST_PARSING_ERROR. -/
def idevice_activation_parse_html_response (resp : Response) (doc : Option XmlNode)
    (decode : XmlNode → Option Plist) : Except IdeviceActivationError Response :=
  if resp.content_type ≠ IdeviceActivationContentType.html then
    .error .unknownContentType
  else
    match doc with
    | none => .error .htmlParsingError
    | some root =>
      if html_auth_required root then
        .ok { resp with is_auth_required := true }
      else
        match html_plist_node root with
        | some node =>
          match decode node with
          | none => .error .plistParsingError
          | some p =>
            match idevice_activation_activation_record_from_plist resp p with
            | (.success, resp) => .ok resp
            | (e, _) => .error e
        | none => .ok { resp with has_errors := true }

/-- The results of the external parsers applied to a response's
raw_content: body_plist is plist_from_xml of the whole body, buddy_doc and
html_doc are the xmlReadMemory results (without and with recovery), and
html_plist is htmlNodeDump followed by plist_from_xml on an embedded
node. -/
structure ExternalParse where
  body_plist : Option Plist
  buddy_doc : Option XmlNode
  html_doc : Option XmlNode
  html_plist : XmlNode → Option Plist

/-- idevice_activation_parse_raw_response (activation.c lines 526-562).
In the plist case the whole parsed document replaces the response's field
set even when the record extraction fails, exactly as in the source,
where the error return then discards the response. -/
def idevice_activation_parse_raw_response (resp : Response) (ext : ExternalParse) :
    Except IdeviceActivationError Response :=
  match resp.content_type with
  | .plist =>
    match ext.body_plist with
    | none => .error .plistParsingError
    | some p =>
      let step :=
        if (plist_dict_get_item p ("HandshakeResponseMessage")).isSome then
          (IdeviceActivationError.success, resp)
        else
          idevice_activation_activation_record_from_plist resp p
      match step with
      | (.success, resp1) => .ok { resp1 with fields := p }
      | (e, _) => .error e
  | .buddyml => idevice_activation_parse_buddyml_response resp ext.buddy_doc
  | .html => idevice_activation_parse_html_response resp ext.html_doc ext.html_plist
  | _ => .error .unknownContentType

/-- The 256-entry conversion table of urlencode (activation.c lines
626-643), transcribed row by row; a nonzero entry means the byte is
percent-encoded. The C indexes it with (int)buf[i], which on the usual
unsigned-char reading is the byte value. -/
def conv_table : List Nat :=
  [1, 1, 1, 1, 1, 1, 1, 1, 1, 1, 1, 1, 1, 1, 1, 1,
   1, 1, 1, 1, 1, 1, 1, 1, 1, 1, 1, 1, 1, 1, 1, 0,
   1, 1, 1, 1, 1, 1, 1, 1, 1, 1, 1, 1, 1, 1, 1, 1,
   0, 0, 0, 0, 0, 0, 0, 0, 0, 0, 1, 1, 1, 1, 1, 1,
   1, 0, 0, 0, 0, 0, 0, 0, 0, 0, 0, 0, 0, 0, 0, 0,
   0, 0, 0, 0, 0, 0, 0, 0, 0, 0, 0, 1, 1, 1, 1, 1,
   1, 0, 0, 0, 0, 0, 0, 0, 0, 0, 0, 0, 0, 0, 0, 0,
   0, 0, 0, 0, 0, 0, 0, 0, 0, 0, 0, 1, 1, 1, 1, 1,
   1, 1, 1, 1, 1, 1, 1, 1, 1, 1, 1, 1, 1, 1, 1, 1,
   1, 1, 1, 1, 1, 1, 1, 1, 1, 1, 1, 1, 1, 1, 1, 1,
   1, 1, 1, 1, 1, 1, 1, 1, 1, 1, 1, 1, 1, 1, 1, 1,
   1, 1, 1, 1, 1, 1, 1, 1, 1, 1, 1, 1, 1, 1, 1, 1,
   1, 1, 1, 1, 1, 1, 1, 1, 1, 1, 1, 1, 1, 1, 1, 1,
   1, 1, 1, 1, 1, 1, 1, 1, 1, 1, 1, 1, 1, 1, 1, 1,
   1, 1, 1, 1, 1, 1, 1, 1, 1, 1, 1, 1, 1, 1, 1, 1,
   1, 1, 1, 1, 1, 1, 1, 1, 1, 1, 1, 1, 1, 1, 1, 1]

/-- The byte of the uppercase hexadecimal digit printed by sprintf %X for
a value below 16. -/
def hex_upper_digit (d : Nat) : Nat :=
  if d < 10 then 48 + d else 55 + d

/-- urlencode (activation.c lines 624-667) over a byte string: a byte
whose table entry is zero is copied, every other byte is printed as
sprintf %%%02X of its unsigned-char value. -/
def urlencode (buf : List Nat) : List Nat :=
  buf.flatMap fun b =>
    if conv_table.getD b 1 ≠ 0 then
      [37, hex_upper_digit (b % 256 / 16), hex_upper_digit (b % 16)]
    else [b]

/-- One key=value& unit of the urlencoded post body built by
idevice_activation_send_request (activation.c line 1294): the key is
printed raw, the value percent-encoded, 61 and 38 being the bytes of
the equals sign and the ampersand. -/
def form_entry (kv : List Nat × List Nat) : List Nat :=
  kv.1 ++ 61 :: urlencode kv.2 ++ [38]

/-- The urlencoded post body for a byte-level field list: the key=value&
units concatenated, then the final ampersand removed when the data is
nonempty (activation.c lines 1304-1307). -/
def encode_form_bytes (fields : List (List Nat × List Nat)) : List Nat :=
  (fields.flatMap form_entry).dropLast

/-- Splitting a byte string on a separator, for the decoding direction of
the round-trip property; follows the claim wording, not the source. -/
def split_on_byte (sep : Nat) : List Nat → List (List Nat)
  | [] => [[]]
  | b :: rest =>
    match split_on_byte sep rest with
    | [] => [[]]
    | g :: gs => if b = sep then [] :: g :: gs else (b :: g) :: gs

/-- Hexadecimal digit test for percent-decoding. -/
def is_hex_digit (b : Nat) : Bool :=
  (48 ≤ b && b ≤ 57) || (65 ≤ b && b ≤ 70) || (97 ≤ b && b ≤ 102)

/-- Value of a hexadecimal digit byte. -/
def hex_val (b : Nat) : Nat :=
  if b ≤ 57 then b - 48 else if b ≤ 70 then b - 55 else b - 87

/-- Percent-decoding, for the decoding direction of the round-trip
property; follows the claim wording, not the source. -/
def pct_decode : List Nat → List Nat
  | [] => []
  | b :: rest =>
    if b = 37 then
      match rest with
      | h :: l :: rest2 =>
        if is_hex_digit h && is_hex_digit l then
          (hex_val h * 16 + hex_val l) :: pct_decode rest2
        else b :: pct_decode (h :: l :: rest2)
      | other => b :: pct_decode other
    else b :: pct_decode rest

/-- Splitting one key=value entry at its first equals sign; an entry
without one yields an empty value. Follows the claim wording. -/
def split_first_on_byte (sep : Nat) (l : List Nat) : List Nat × List Nat :=
  (l.takeWhile (fun b => b ≠ sep), (l.dropWhile (fun b => b ≠ sep)).drop 1)

/-- The decoding direction of claim C3, from the claim wording: split the
body on ampersands, split each entry at its first equals sign and
percent-decode the value. -/
def spec_decode_form (body : List Nat) : List (List Nat × List Nat) :=
  if body = [] then []
  else
    (split_on_byte 38 body).map fun entry =>
      let kv := split_first_on_byte 61 entry
      (kv.1, pct_decode kv.2)

/-- The bytes of a string, for feeding C byte strings to urlencode. -/
def str_bytes (s : String) : List Nat :=
  s.data.map Char.toNat

/-- The urlencoded-body loop of idevice_activation_send_request
(activation.c lines 1273-1302): fields are visited in order; a string
value is appended as key=value& with the value percent-encoded and the
key printed raw, and the first non-string value aborts with
UNSUPPORTED_FIELD_TYPE. -/
def build_urlencoded_raw : List (String × Plist) → Except IdeviceActivationError (List Nat)
  | [] => .ok []
  | (k, v) :: rest =>
    match v with
    | .string s =>
      (build_urlencoded_raw rest).map fun tail =>
        str_bytes k ++ 61 :: urlencode (str_bytes s) ++ 38 :: tail
    | _ => .error .unsupportedFieldType

/-- The complete urlencoded post body: the loop result with the trailing
ampersand removed when the data is nonempty (activation.c lines
1304-1307). -/
def build_urlencoded_postdata (fields : Plist) : Except IdeviceActivationError (List Nat) :=
  (build_urlencoded_raw (dict_entries fields)).map List.dropLast

mutual

/-- Serialization of one node as libplist's plist_to_xml body fragment;
plist_to_xml is an external libplist function, modelled by a plain
recursive XML printer (claims depend only on the envelope markers and on
the function being total). -/
def plist_to_xml_node : Plist → String
  | .string s => ("<string>") ++ s ++ ("</string>")
  | .boolean b => if b then ("<true/>") else ("<false/>")
  | .integer n => ("<integer>") ++ toString n ++ ("</integer>")
  | .data d => ("<data>") ++ d ++ ("</data>")
  | .dict es => ("<dict>") ++ plist_to_xml_entries es ++ ("</dict>")

/-- Serialization of dict entries for plist_to_xml_node. -/
def plist_to_xml_entries : List (String × Plist) → String
  | [] => ""
  | (k, v) :: rest => ("<key>") ++ k ++ ("</key>") ++ plist_to_xml_node v ++ plist_to_xml_entries rest

end

/-- plist_to_xml: a standalone XML property-list document wrapping the
node between the envelope markers plist_strip_xml looks for. -/
def plist_to_xml (p : Plist) : String :=
  ("<?xml version=\"1.0\" encoding=\"UTF-8\"?>\n<plist version=\"1.0\">\n")
    ++ plist_to_xml_node p ++ ("\n</plist>\n")

/-- Index of the first occurrence of a substring in a character list,
modelling strstr. -/
def find_sub (sub : List Char) : List Char → Option Nat
  | [] => if sub = [] then some 0 else none
  | c :: rest =>
    if sub.isPrefixOf (c :: rest) then some 0
    else (find_sub sub rest).map (· + 1)

/-- plist_strip_xml (activation.c lines 669-694): cut the text strictly
between the first occurrences of the start and stop envelope markers;
when a marker is missing the string is left unchanged (the C returns -1
and the caller ignores the result). When the stop marker begins before
the end of the start marker the C size computation underflows and the
huge allocation fails, which also leaves the string unchanged. -/
def plist_strip_xml (s : String) : String :=
  let startM := ("<plist version=\"1.0\">\n")
  let stopM := ("\n</plist>")
  match find_sub startM.data s.data, find_sub stopM.data s.data with
  | some a, some b =>
    let st := a + startM.length
    if st ≤ b then String.mk ((s.data.drop st).take (b - st)) else s
  | _, _ => s

/-- The multipart-form loop of idevice_activation_send_request
(activation.c lines 1249-1271): every field becomes a named part, a
string value verbatim and any other value as its plist_to_xml text with
the envelope stripped. -/
def build_multipart_form (entries : List (String × Plist)) : List (String × String) :=
  entries.map fun kv =>
    (kv.1,
     match kv.2 with
     | .string s => s
     | v => plist_strip_xml (plist_to_xml v))

/-- The three transmittable body shapes built by
idevice_activation_send_request. -/
inductive RequestBody where
  | urlencodedForm (postdata : List Nat)
  | multipartForm (parts : List (String × String))
  | plistForm (postdata : String)

/-- The body-construction dispatch of idevice_activation_send_request
(activation.c lines 1249-1326): multipart and plist bodies always
succeed, the urlencoded body fails on a non-string field, and any other
request content type is INTERNAL_ERROR. -/
def encode_request_body (ct : IdeviceActivationContentType) (fields : Plist) :
    Except IdeviceActivationError RequestBody :=
  match ct with
  | .multipartFormdata => .ok (.multipartForm (build_multipart_form (dict_entries fields)))
  | .urlEncoded => (build_urlencoded_postdata fields).map .urlencodedForm
  | .plist => .ok (.plistForm (plist_to_xml fields))
  | _ => .error .internalError

/-- idevice_activation_request_private (activation.c lines 68-73). -/
structure Request where
  client_type : IdeviceActivationClientType
  content_type : IdeviceActivationContentType
  url : String
  fields : Plist

/-- IDEVICE_ACTIVATION_DEFAULT_URL. -/
def idevice_activation_default_url : String :=
  "https://albert.apple.com/deviceservices/deviceActivation"

/-- IDEVICE_ACTIVATION_DRM_HANDSHAKE_DEFAULT_URL. -/
def idevice_activation_drm_handshake_default_url : String :=
  "https://albert.apple.com/deviceservices/drmHandshake"

/-- idevice_activation_request_new (activation.c lines 724-742). -/
def idevice_activation_request_new (ct : IdeviceActivationClientType) : Request :=
  { client_type := ct
    content_type := .urlEncoded
    url := idevice_activation_default_url
    fields := .dict [] }

/-- idevice_activation_request_new_from_lockdownd (activation.c lines
744-865): the field dict is assembled from the device collaborator
(external I/O), so it is taken as an input; the request it returns always
carries the multipart content type and the default URL. -/
def idevice_activation_request_new_from_lockdownd (ct : IdeviceActivationClientType)
    (fields : Plist) : Request :=
  { client_type := ct
    content_type := .multipartFormdata
    url := idevice_activation_default_url
    fields := fields }

/-- idevice_activation_drm_handshake_request_new (activation.c lines
867-885). -/
def idevice_activation_drm_handshake_request_new (ct : IdeviceActivationClientType) : Request :=
  { client_type := ct
    content_type := .plist
    url := idevice_activation_drm_handshake_default_url
    fields := .dict [] }

/-- The scan of idevice_activation_request_set_fields over the incoming
fields (activation.c lines 910-920): whether any value is not a string. -/
def has_non_string_field (fields : Plist) : Bool :=
  (dict_entries fields).any fun kv => ! plist_is_string kv.2

/-- idevice_activation_request_set_fields (activation.c lines 904-924):
on a urlencoded request, an incoming non-string value first widens the
content type to multipart; then the incoming fields are merged. -/
def idevice_activation_request_set_fields (r : Request) (fields : Plist) : Request :=
  let r :=
    if r.content_type = IdeviceActivationContentType.urlEncoded && has_non_string_field fields then
      { r with content_type := .multipartFormdata }
    else r
  { r with fields := plist_dict_merge r.fields fields }

/-- idevice_activation_request_set_fields_from_response (activation.c
lines 926-937): set_fields on a copy of the response's field set. -/
def idevice_activation_request_set_fields_from_response (r : Request) (resp : Response) : Request :=
  idevice_activation_request_set_fields r resp.fields

/-- idevice_activation_request_set_field (activation.c lines 939-945). -/
def idevice_activation_request_set_field (r : Request) (k v : String) : Request :=
  { r with fields := plist_dict_set_item r.fields k (.string v) }

/-- idevice_activation_request_set_url (activation.c lines 975-982). -/
def idevice_activation_request_set_url (r : Request) (u : String) : Request :=
  { r with url := u }

/-- Split a header line at its first colon (strchr in activation.c line
590), returning the name and the remainder; none when there is no colon,
in which case the callback stores nothing. -/
def split_colon : List Char → Option (List Char × List Char)
  | [] => none
  | c :: rest =>
    if c = ':' then some ([], rest)
    else (split_colon rest).map fun p => (c :: p.1, p.2)

/-- tolower restricted to ASCII capitals, as used by strncasecmp under
the C locale. -/
def ascii_lower (c : Char) : Char :=
  if ('A' ≤ c && c ≤ 'Z') then Char.ofNat (c.toNat + 32) else c

/-- strncasecmp(v, pat, pat.length) == 0: the first pat.length characters
of v equal pat up to ASCII case; a shorter v fails, since strncasecmp
then meets its terminator inside the comparison window. -/
def ci_starts_with (pat v : List Char) : Bool :=
  (v.take pat.length).map ascii_lower == pat.map ascii_lower

/-- The Content-Type value dispatch of idevice_activation_header_callback
(activation.c lines 606-616): case-insensitive prefix tests in source
order, each with the pattern's own length, leaving the previous content
type for any other value. -/
def classify_content_type (prev : IdeviceActivationContentType) (v : List Char) :
    IdeviceActivationContentType :=
  if ci_starts_with (("text/xml").data) v then .plist
  else if ci_starts_with (("application/xml").data) v then .plist
  else if ci_starts_with (("application/x-buddyml").data) v then .buddyml
  else if ci_starts_with (("text/html").data) v then .html
  else prev

/-- idevice_activation_header_callback (activation.c lines 579-622) on
one received header line: split at the first colon, skip the spaces after
it, and when a value remains, cut it at the first CR or LF; a header
whose first twelve characters case-insensitively equal Content-Type
classifies the response's content type, and every named header with a
value is retained in the headers dict. -/
def idevice_activation_header_callback (line : List Char) (resp : Response) : Response :=
  match split_colon line with
  | none => resp
  | some (nm, after) =>
    let afterSpaces := after.dropWhile (fun c => c = ' ')
    match afterSpaces with
    | [] => resp
    | _ :: _ =>
      let value := afterSpaces.takeWhile (fun c => c ≠ '\n' && c ≠ '\r')
      let resp :=
        if ci_starts_with (("Content-Type").data) nm then
          { resp with content_type := classify_content_type resp.content_type value }
        else resp
      { resp with headers := plist_dict_set_item resp.headers (String.mk nm) (.string (String.mk value)) }

/-- The transport collaborator's contribution to one exchange: the
accumulated body bytes delivered to the write callback, the header lines
delivered to the header callback, and the external parser results for the
body. -/
structure Transport where
  body : String
  header_lines : List (List Char)
  ext : ExternalParse

/-- idevice_activation_send_request (activation.c lines 1209-1370). The
request is returned alongside the result, standing for the object the
caller passed in (no code path of the C writes to it); the Option
Response is the caller's out-pointer, assigned only on the success path
after parsing, and the final component is the returned error code. -/
def idevice_activation_send_request (request : Request) (t : Transport) :
    Request × Option Response × IdeviceActivationError :=
  match encode_request_body request.content_type request.fields with
  | .error e => (request, none, e)
  | .ok _body =>
    let resp := idevice_activation_response_new
    let resp := t.header_lines.foldl (fun r line => idevice_activation_header_callback line r) resp
    let resp := { resp with raw_content := t.body }
    match idevice_activation_parse_raw_response resp t.ext with
    | .error e => (request, none, e)
    | .ok r => (request, some r, .success)

/-- The outcome of one round of the activation loop of
tools/ideviceactivation.c. -/
inductive RoundResult where
  | errored
  | recordReady (record : Plist)
  | acknowledged
  | unknownError
  | nextRequest (request : Request)

/-- The per-field prompt loop of the tool (tools/ideviceactivation.c
lines 444-460): every response field that requires input is set on the
new request from the input collaborator. -/
def collect_input_fields (req : Request) (resp : Response) (inputs : String → String) :
    List (String × Plist) → Request
  | [] => req
  | (k, _) :: rest =>
    let req :=
      if (plist_dict_get_item resp.fields_require_input k).isSome then
        idevice_activation_request_set_field req k (inputs k)
      else req
    collect_input_fields req resp inputs rest

/-- One round of the activation loop of tools/ideviceactivation.c (lines
328-466), after a response has been obtained: reported errors end the
loop, then a present activation record, then an acknowledgment, then an
empty field set (the unknown-error exit); otherwise a fresh request is
built, seeded from the response fields, input is collected, and the loop
continues with the new request. -/
def session_round (resp : Response) (inputs : String → String) : RoundResult :=
  if resp.has_errors then .errored
  else
    match resp.activation_record with
    | some record => .recordReady record
    | none =>
      if resp.is_activation_ack then .acknowledged
      else if plist_dict_get_size resp.fields = 0 then .unknownError
      else
        let req := idevice_activation_request_new .mobileActivation
        let req := idevice_activation_request_set_fields_from_response req resp
        .nextRequest (collect_input_fields req resp inputs (dict_entries resp.fields))

/-- Whether the tool's while(1) loop is still running. -/
inductive SessionStatus where
  | looping
  | finished (r : RoundResult)

/-- n rounds of the tool's while(1) loop (tools/ideviceactivation.c line
319), the response of each round being supplied by the transport
oracle. -/
def run_loop (responses : Nat → Response) (inputs : String → String) : Nat → SessionStatus
  | 0 => .looping
  | n + 1 =>
    match run_loop responses inputs n with
    | .looping =>
      match session_round (responses n) inputs with
      | .nextRequest _ => .looping
      | r => .finished r
    | s => s

/-- Whether an Except value is a success. -/
def except_is_ok {e a : Type} : Except e a → Bool
  | .ok _ => true
  | .error _ => false

/-- The requests constructible through the public constructors and
setters of the library: the three constructors (plain, derived from the
device collaborator, handshake-flavored) and the four mutators. The
device-derived constructor takes its assembled field dict as an input,
since the assembly reads the device (external I/O); its content type and
URL are fixed by the source (activation.c lines 858-860). -/
inductive ReachableRequest : Request → Prop where
  | new (ct : IdeviceActivationClientType) :
      ReachableRequest (idevice_activation_request_new ct)
  | new_from_lockdownd (ct : IdeviceActivationClientType) (fields : Plist) :
      ReachableRequest (idevice_activation_request_new_from_lockdownd ct fields)
  | drm_handshake (ct : IdeviceActivationClientType) :
      ReachableRequest (idevice_activation_drm_handshake_request_new ct)
  | set_field (r : Request) (k v : String) :
      ReachableRequest r → ReachableRequest (idevice_activation_request_set_field r k v)
  | set_fields (r : Request) (fields : Plist) :
      ReachableRequest r → ReachableRequest (idevice_activation_request_set_fields r fields)
  | set_fields_from_response (r : Request) (resp : Response) :
      ReachableRequest r →
      ReachableRequest (idevice_activation_request_set_fields_from_response r resp)
  | set_url (r : Request) (u : String) :
      ReachableRequest r → ReachableRequest (idevice_activation_request_set_url r u)

/-- The record extraction never touches the error flag. -/
lemma record_from_plist_has_errors (resp : Response) (p : Plist) :
    ((idevice_activation_activation_record_from_plist resp p).2).has_errors = resp.has_errors := by
  unfold idevice_activation_activation_record_from_plist
  dsimp only
  repeat' split
  all_goals rfl

/-- Adding a response field never touches the activation record. -/
lemma add_field_activation_record (resp : Response) (k v : String) (ri si : Bool) :
    (idevice_activation_response_add_field resp k v ri si).activation_record =
      resp.activation_record := by
  unfold idevice_activation_response_add_field
  dsimp only
  repeat' split
  all_goals rfl

/-- The serverInfo loop never touches the activation record. -/
lemma process_server_info_activation_record (l : List (String × String)) :
    ∀ resp : Response, (process_server_info resp l).activation_record = resp.activation_record := by
  induction l with
  | nil => intro resp; rfl
  | cons kv rest ih =>
    intro resp
    unfold process_server_info
    rw [ih]
    split <;> rw [add_field_activation_record]

/-- The editableTextRow loop never touches the activation record. -/
lemma process_editable_rows_activation_record (rows : List XmlNode) :
    ∀ resp : Response, ((process_editable_rows resp rows).2).activation_record =
      resp.activation_record := by
  induction rows with
  | nil => intro resp; rfl
  | cons row rest ih =>
    intro resp
    unfold process_editable_rows
    split
    · rfl
    · rw [ih]
      repeat' split
      all_goals rw [add_field_activation_record]

/-- The BuddyML field-collection phase never touches the activation
record. -/
lemma buddyml_collect_fields_activation_record (resp2 : Response) (root : XmlNode) (r : Response)
    (h : buddyml_collect_fields resp2 root = .ok r) :
    r.activation_record = resp2.activation_record := by
  unfold buddyml_collect_fields at h
  dsimp only at h
  split at h
  · rename_i resp4 heq2
    have h4 := process_editable_rows_activation_record (editable_text_rows root)
      (match footer_description root with
       | some d => { resp2 with description := some d }
       | none => resp2)
    rw [heq2] at h4
    have h4b : resp4.activation_record = resp2.activation_record := by
      rw [h4]
      split <;> rfl
    split at h
    all_goals
      rw [Except.ok.injEq] at h
      subst h
      simp only [process_server_info_activation_record, h4b]
  · exact absurd h (by simp)

/-- The BuddyML parser never produces an activation record. -/
lemma buddyml_preserves_activation_record (resp : Response) (doc : Option XmlNode) (r : Response)
    (h : idevice_activation_parse_buddyml_response resp doc = .ok r) :
    r.activation_record = resp.activation_record := by
  unfold idevice_activation_parse_buddyml_response at h
  split at h
  · exact absurd h (by simp)
  · split at h
    · exact absurd h (by simp)
    · rename_i root
      split at h
      · rw [Except.ok.injEq] at h
        subst h
        split <;> rfl
      · split at h
        · rw [Except.ok.injEq] at h
          subst h
          rfl
        · split at h
          · have := buddyml_collect_fields_activation_record _ _ _ h
            rw [this]
            split <;> rfl
          · split at h
            · have := buddyml_collect_fields_activation_record _ _ _ h
              rw [this]
              split <;> rfl
            · exact absurd h (by simp)

/-- In the HTML parser, a produced activation record comes from the
embedded-plist branch, which leaves the error flag alone. -/
lemma html_record_has_errors (resp : Response) (doc : Option XmlNode)
    (decode : XmlNode → Option Plist) (r : Response)
    (h : idevice_activation_parse_html_response resp doc decode = .ok r)
    (hhe : resp.has_errors = false) (hrec : resp.activation_record = none)
    (hsome : r.activation_record.isSome = true) : r.has_errors = false := by
  unfold idevice_activation_parse_html_response at h
  split at h
  · exact absurd h (by simp)
  · split at h
    · exact absurd h (by simp)
    · split at h
      · rw [Except.ok.injEq] at h
        subst h
        rw [hrec] at hsome
        simp at hsome
      · split at h
        · split at h
          · exact absurd h (by simp)
          · rename_i pl hdec
            split at h
            · rename_i resp1 hstep
              rw [Except.ok.injEq] at h
              subst h
              have hpres := record_from_plist_has_errors resp pl
              rw [hstep] at hpres
              simpa [hhe] using hpres
            · exact absurd h (by simp)
        · rw [Except.ok.injEq] at h
          subst h
          rw [hrec] at hsome
          simp at hsome

/-- Claim C1 (counterexample): parsing a plist body whose top-level
ActivationRecord dict carries ack-received = true leaves the response
with BOTH a non-null activation_record and is_activation_ack set, so the
claimed exclusion of the two outcomes fails exactly on the input the
claim singles out (activation.c lines 174-183 set both). -/
theorem c1_record_with_ack_counterexample :
    (idevice_activation_parse_raw_response
        { idevice_activation_response_new with
            content_type := IdeviceActivationContentType.plist
            raw_content := "raw-activation-bytes" }
        { body_plist := some (.dict
            [(("ActivationRecord"), .dict [(("ack-received"), .boolean true)])])
          buddy_doc := none
          html_doc := none
          html_plist := fun _ => none }).map
      (fun r => r.activation_record.isSome && r.is_activation_ack) = .ok true := by
  rfl

/-- Claim C1 (amended): for every response produced by any dialect parser
from a fresh response (error flag clear, no record yet), a non-null
activation_record implies has_errors is false; the claim's further
exclusion of is_activation_ack does not hold, as the counterexample
shows. -/
theorem c1_record_implies_no_errors (resp : Response) (ext : ExternalParse) (r : Response)
    (hhe : resp.has_errors = false) (hrec : resp.activation_record = none)
    (h : idevice_activation_parse_raw_response resp ext = .ok r)
    (hsome : r.activation_record.isSome = true) : r.has_errors = false := by
  unfold idevice_activation_parse_raw_response at h
  split at h
  · split at h
    · exact absurd h (by simp)
    · rename_i p hp
      dsimp only at h
      split at h
      · rename_i resp1 hstep
        rw [Except.ok.injEq] at h
        subst h
        split at hstep
        · rw [Prod.mk.injEq] at hstep
          rw [← hstep.2]
          exact hhe
        · have hpres := record_from_plist_has_errors resp p
          rw [hstep] at hpres
          simpa [hhe] using hpres
      · exact absurd h (by simp)
  · have := buddyml_preserves_activation_record _ _ _ h
    rw [this, hrec] at hsome
    simp at hsome
  · exact html_record_has_errors _ _ _ _ h hhe hrec hsome
  · exact absurd h (by simp)

/-- Claim C1 witness: the amended theorem applied to a concrete plist
response carrying an ActivationRecord without an acknowledgment. -/
theorem c1_record_implies_no_errors_witness :
    idevice_activation_parse_raw_response
        { idevice_activation_response_new with
            content_type := IdeviceActivationContentType.plist
            raw_content := "raw-activation-bytes" }
        { body_plist := some (.dict [(("ActivationRecord"), .dict [])])
          buddy_doc := none
          html_doc := none
          html_plist := fun _ => none } =
      .ok { idevice_activation_response_new with
              content_type := IdeviceActivationContentType.plist
              raw_content := "raw-activation-bytes"
              activation_record := some (.data ("raw-activation-bytes"))
              fields := .dict [(("ActivationRecord"), .dict [])] } ∧
    ({ idevice_activation_response_new with
         content_type := IdeviceActivationContentType.plist
         raw_content := "raw-activation-bytes"
         activation_record := some (.data ("raw-activation-bytes"))
         fields := .dict [(("ActivationRecord"), .dict [])] } : Response).has_errors = false := by
  exact And.intro rfl
    (c1_record_implies_no_errors
      { idevice_activation_response_new with
          content_type := IdeviceActivationContentType.plist
          raw_content := "raw-activation-bytes" }
      { body_plist := some (.dict [(("ActivationRecord"), .dict [])])
        buddy_doc := none
        html_doc := none
        html_plist := fun _ => none }
      { idevice_activation_response_new with
          content_type := IdeviceActivationContentType.plist
          raw_content := "raw-activation-bytes"
          activation_record := some (.data ("raw-activation-bytes"))
          fields := .dict [(("ActivationRecord"), .dict [])] }
      rfl rfl rfl rfl)

/-- Claim C6 (confirmed): a structured-document body whose top-level dict
holds an ActivationRecord dict with ack-received = true parses
successfully, sets is_activation_ack, stores the raw response bytes as
the activation record, and retains the parsed document as the field set
(activation.c lines 171-183 and 530-552). The body must not carry the
drmHandshake marker, which the source checks first (line 542). -/
theorem c6_plist_ack_record (resp : Response) (ext : ExternalParse)
    (outer : List (String × Plist)) (inner : Plist)
    (hct : resp.content_type = IdeviceActivationContentType.plist)
    (hbody : ext.body_plist = some (.dict outer))
    (hhs : plist_dict_get_item (.dict outer) ("HandshakeResponseMessage") = none)
    (hrec : plist_dict_get_item (.dict outer) ("ActivationRecord") = some inner)
    (hack : plist_dict_get_item inner ("ack-received") = some (.boolean true)) :
    idevice_activation_parse_raw_response resp ext =
      .ok { resp with
              is_activation_ack := true
              activation_record := some (.data resp.raw_content)
              fields := .dict outer } := by
  simp only [idevice_activation_parse_raw_response, hct, hbody, hhs,
    idevice_activation_activation_record_from_plist, hrec, hack, plist_get_bool_val,
    Option.isSome_none, Bool.false_eq_true, if_true, if_false, ite_false]

/-- Claim C6 witness: the theorem applied to the concrete body of the
spec's example. -/
theorem c6_plist_ack_record_witness :
    idevice_activation_parse_raw_response
        { idevice_activation_response_new with
            content_type := IdeviceActivationContentType.plist
            raw_content := "the-raw-body" }
        { body_plist := some (.dict
            [(("ActivationRecord"), .dict [(("ack-received"), .boolean true)])])
          buddy_doc := none
          html_doc := none
          html_plist := fun _ => none } =
      .ok { idevice_activation_response_new with
              content_type := IdeviceActivationContentType.plist
              raw_content := "the-raw-body"
              is_activation_ack := true
              activation_record := some (.data ("the-raw-body"))
              fields := .dict
                [(("ActivationRecord"), .dict [(("ack-received"), .boolean true)])] } := by
  exact c6_plist_ack_record _ _ _ _ rfl rfl rfl rfl rfl

/-- The conversion table passes a byte through exactly when it is a
decimal digit, an ASCII letter, or byte 0x1F. -/
lemma conv_table_pass : ∀ b : Nat, b < 256 →
    ((conv_table.getD b 1 = 0) ↔
      ((48 ≤ b ∧ b ≤ 57) ∨ (65 ≤ b ∧ b ≤ 90) ∨ (97 ≤ b ∧ b ≤ 122) ∨ b = 31)) := by
  decide

/-- Claim C2 (counterexample): the table encodes the hyphen (byte 45
becomes the three bytes of %2D instead of passing through) and passes
byte 0x1F through unescaped instead of emitting %1F, so neither half of
the claimed character classification holds on this table (activation.c
lines 626-643: rows 0x20-0x2F, 0x5B-0x5F and 0x7B-0x7F are all ones, and
entry 0x1F is zero). The claim expects urlencode [45] = [45] and
urlencode [31] = [37, 49, 70]. -/
theorem c2_unreserved_bytes_counterexample :
    urlencode [45] = [37, 50, 68] ∧ urlencode [31] = [31] :=
  ⟨rfl, rfl⟩

/-- Claim C2 (amended): under this table the bytes emitted unchanged are
exactly the alphanumerics and byte 0x1F; every other byte, including the
RFC 3986 unreserved punctuation and all bytes above 0x7F, is emitted as a
percent sign followed by exactly two uppercase hexadecimal digits of its
value. -/
theorem c2_urlencode_characterization (bs : List Nat) :
    (∀ b ∈ bs, b < 256) →
    urlencode bs = bs.flatMap (fun b =>
      if (48 ≤ b ∧ b ≤ 57) ∨ (65 ≤ b ∧ b ≤ 90) ∨ (97 ≤ b ∧ b ≤ 122) ∨ b = 31 then [b]
      else [37, hex_upper_digit (b / 16), hex_upper_digit (b % 16)]) := by
  induction bs with
  | nil => intro _; rfl
  | cons b rest ih =>
    intro hb
    have hblt : b < 256 := hb b (List.mem_cons_self b rest)
    have hmod : b % 256 = b := Nat.mod_eq_of_lt hblt
    unfold urlencode
    rw [List.flatMap_cons, List.flatMap_cons]
    unfold urlencode at ih
    rw [ih (fun x hx => hb x (List.mem_cons_of_mem b hx))]
    congr 1
    by_cases hp : (48 ≤ b ∧ b ≤ 57) ∨ (65 ≤ b ∧ b ≤ 90) ∨ (97 ≤ b ∧ b ≤ 122) ∨ b = 31
    · have h0 : conv_table.getD b 1 = 0 := (conv_table_pass b hblt).mpr hp
      rw [if_neg (fun hC => hC h0), if_pos hp]
    · have h0 : conv_table.getD b 1 ≠ 0 := fun hc => hp ((conv_table_pass b hblt).mp hc)
      rw [if_pos h0, if_neg hp, hmod]

/-- Claim C2 witness: the characterization applied to the bytes of an
uppercase A followed by byte 200, which encodes as %C8. -/
theorem c2_urlencode_characterization_witness :
    (∀ b ∈ [65, 200], b < 256) ∧ urlencode [65, 200] = [65, 37, 67, 56] := by
  refine ⟨by decide, ?_⟩
  rw [c2_urlencode_characterization [65, 200] (by decide)]
  rfl

/-- A passed-through byte is never a percent sign, an ampersand or an
equals sign. -/
lemma conv_pass_not_special : ∀ b : Nat, b < 256 → conv_table.getD b 1 = 0 →
    b ≠ 37 ∧ b ≠ 38 ∧ b ≠ 61 := by
  decide

/-- Uppercase hexadecimal digit bytes are hex digits and are never the
ampersand or the equals sign. -/
lemma hex_upper_digit_props : ∀ d : Nat, d < 16 →
    is_hex_digit (hex_upper_digit d) = true ∧
    hex_upper_digit d ≠ 38 ∧ hex_upper_digit d ≠ 61 := by
  decide

/-- Reading back the two emitted hexadecimal digits recovers the byte. -/
lemma hex_round : ∀ b : Nat, b < 256 →
    hex_val (hex_upper_digit (b % 256 / 16)) * 16 + hex_val (hex_upper_digit (b % 16)) = b := by
  decide

/-- One step of urlencode. -/
lemma urlencode_cons (b : Nat) (rest : List Nat) :
    urlencode (b :: rest) =
      (if conv_table.getD b 1 ≠ 0 then
        [37, hex_upper_digit (b % 256 / 16), hex_upper_digit (b % 16)]
      else [b]) ++ urlencode rest := by
  unfold urlencode
  rw [List.flatMap_cons]

/-- Percent-decoding passes a non-percent byte through. -/
lemma pct_decode_cons_ne (b : Nat) (L : List Nat) (hb : b ≠ 37) :
    pct_decode (b :: L) = b :: pct_decode L := by
  rw [pct_decode.eq_def]
  dsimp only
  rw [if_neg hb]

/-- Percent-decoding consumes a percent escape. -/
lemma pct_decode_hex (h l : Nat) (L : List Nat)
    (hh : is_hex_digit h = true) (hl : is_hex_digit l = true) :
    pct_decode (37 :: h :: l :: L) = (hex_val h * 16 + hex_val l) :: pct_decode L := by
  rw [pct_decode.eq_def]
  dsimp only
  rw [hh, hl]
  simp

/-- urlencode output never contains an ampersand or an equals sign: both
have nonzero table entries, so raw output bytes exclude them, and escape
output consists of the percent sign and hex digits. -/
lemma urlencode_no_separators (bs : List Nat) (hb : ∀ b ∈ bs, b < 256) :
    ∀ c ∈ urlencode bs, c ≠ 38 ∧ c ≠ 61 := by
  induction bs with
  | nil => intro c hc; simp [urlencode] at hc
  | cons b rest ih =>
    intro c hc
    have hblt : b < 256 := hb b (List.mem_cons_self b rest)
    rw [urlencode_cons, List.mem_append] at hc
    rcases hc with hc | hc
    · by_cases h0 : conv_table.getD b 1 = 0
      · rw [if_neg (fun hC => hC h0)] at hc
        rw [List.mem_singleton] at hc
        subst hc
        exact (conv_pass_not_special c hblt h0).2
      · rw [if_pos h0] at hc
        have h16a : b % 256 / 16 < 16 := by omega
        have h16b : b % 16 < 16 := Nat.mod_lt b (by omega)
        simp only [List.mem_cons, List.not_mem_nil, or_false] at hc
        rcases hc with rfl | rfl | rfl
        · exact ⟨by omega, by omega⟩
        · exact (hex_upper_digit_props _ h16a).2
        · exact (hex_upper_digit_props _ h16b).2
    · exact ih (fun x hx => hb x (List.mem_cons_of_mem b hx)) c hc

/-- Percent-decoding inverts urlencode, byte string by byte string. -/
lemma pct_decode_urlencode (bs : List Nat) (hb : ∀ b ∈ bs, b < 256) :
    ∀ tail : List Nat, pct_decode (urlencode bs ++ tail) = bs ++ pct_decode tail := by
  induction bs with
  | nil => intro tail; rfl
  | cons b rest ih =>
    intro tail
    have hblt : b < 256 := hb b (List.mem_cons_self b rest)
    have ihr := ih (fun x hx => hb x (List.mem_cons_of_mem b hx))
    rw [urlencode_cons]
    by_cases h0 : conv_table.getD b 1 = 0
    · rw [if_neg (fun hC => hC h0), List.singleton_append, List.cons_append]
      rw [pct_decode_cons_ne b _ (conv_pass_not_special b hblt h0).1]
      rw [ihr]
      try rfl
    · rw [if_pos h0]
      have h16a : b % 256 / 16 < 16 := by omega
      have h16b : b % 16 < 16 := Nat.mod_lt b (by omega)
      simp only [List.cons_append, List.nil_append]
      rw [pct_decode_hex _ _ _ (hex_upper_digit_props _ h16a).1 (hex_upper_digit_props _ h16b).1]
      rw [ihr, hex_round b hblt]
      try rfl

/-- Splitting never yields an empty group list. -/
lemma split_on_byte_ne_nil (sep : Nat) (l : List Nat) : split_on_byte sep l ≠ [] := by
  cases l with
  | nil => simp [split_on_byte]
  | cons b rest =>
    rw [split_on_byte.eq_def]
    dsimp only
    cases split_on_byte sep rest with
    | nil => simp
    | cons g gs =>
      dsimp only
      split <;> simp

/-- Splitting a separator-free string yields the one group. -/
lemma split_on_byte_no_sep (sep : Nat) (xs : List Nat) (h : ∀ c ∈ xs, c ≠ sep) :
    split_on_byte sep xs = [xs] := by
  induction xs with
  | nil => rfl
  | cons b rest ih =>
    rw [split_on_byte.eq_def]
    dsimp only
    rw [ih (fun c hc => h c (List.mem_cons_of_mem b hc))]
    dsimp only
    rw [if_neg (h b (List.mem_cons_self b rest))]

/-- Splitting peels off a separator-free prefix. -/
lemma split_on_byte_append (sep : Nat) (xs ys : List Nat) (h : ∀ c ∈ xs, c ≠ sep) :
    split_on_byte sep (xs ++ sep :: ys) = xs :: split_on_byte sep ys := by
  induction xs with
  | nil =>
    obtain ⟨g, gs, hgg⟩ : ∃ g gs, split_on_byte sep ys = g :: gs := by
      cases hs : split_on_byte sep ys with
      | nil => exact absurd hs (split_on_byte_ne_nil sep ys)
      | cons g gs => exact ⟨g, gs, rfl⟩
    rw [List.nil_append, split_on_byte.eq_def]
    dsimp only
    rw [hgg]
    dsimp only
    rw [if_pos rfl, ← hgg]
  | cons b rest ih =>
    rw [List.cons_append, split_on_byte.eq_def]
    dsimp only
    rw [ih (fun c hc => h c (List.mem_cons_of_mem b hc))]
    dsimp only
    rw [if_neg (h b (List.mem_cons_self b rest))]

/-- takeWhile stops exactly at the first equals sign. -/
lemma take_while_until (k ev : List Nat) (hk : ∀ c ∈ k, c ≠ 61) :
    (k ++ 61 :: ev).takeWhile (fun b => b ≠ 61) = k := by
  induction k with
  | nil => simp [List.takeWhile_cons]
  | cons c k2 ih =>
    rw [List.cons_append, List.takeWhile_cons]
    have hcne : c ≠ 61 := hk c (List.mem_cons_self c k2)
    rw [decide_eq_true hcne, if_pos rfl]
    rw [ih (fun x hx => hk x (List.mem_cons_of_mem c hx))]

/-- dropWhile stops exactly at the first equals sign. -/
lemma drop_while_until (k ev : List Nat) (hk : ∀ c ∈ k, c ≠ 61) :
    (k ++ 61 :: ev).dropWhile (fun b => b ≠ 61) = 61 :: ev := by
  induction k with
  | nil => simp [List.dropWhile_cons]
  | cons c k2 ih =>
    rw [List.cons_append, List.dropWhile_cons]
    have hcne : c ≠ 61 := hk c (List.mem_cons_self c k2)
    rw [decide_eq_true hcne, if_pos rfl]
    exact ih (fun x hx => hk x (List.mem_cons_of_mem c hx))

/-- An entry with an equals-free key splits at its first equals sign. -/
lemma split_first_at (k ev : List Nat) (hk : ∀ c ∈ k, c ≠ 61) :
    split_first_on_byte 61 (k ++ 61 :: ev) = (k, ev) := by
  unfold split_first_on_byte
  rw [take_while_until k ev hk, drop_while_until k ev hk]
  rfl

/-- The key=value& unit, reassociated. -/
lemma form_entry_shape (kv : List Nat × List Nat) :
    form_entry kv = (kv.1 ++ 61 :: urlencode kv.2) ++ [38] := by
  unfold form_entry
  simp [List.append_assoc]

/-- dropLast acts on the right part of an append when that part is
nonempty. -/
lemma dropLast_append_left {α : Type} (xs : List α) :
    ∀ ys : List α, ys ≠ [] → (xs ++ ys).dropLast = xs ++ ys.dropLast := by
  induction xs with
  | nil => intro ys _; simp
  | cons x xs2 ih =>
    intro ys hys
    rw [List.cons_append]
    rw [List.dropLast_cons_of_ne_nil (by simp [hys])]
    rw [ih ys hys, List.cons_append]

/-- A trimmed entry contains no ampersand when its key has none. -/
lemma entry_no_amp (kv : List Nat × List Nat)
    (hkc : ∀ c ∈ kv.1, c ≠ 38 ∧ c ≠ 61) (hvb : ∀ b ∈ kv.2, b < 256) :
    ∀ c ∈ kv.1 ++ 61 :: urlencode kv.2, c ≠ 38 := by
  intro c hc
  rw [List.mem_append, List.mem_cons] at hc
  rcases hc with hc | hc | hc
  · exact (hkc c hc).1
  · omega
  · exact (urlencode_no_separators kv.2 hvb c hc).1

/-- Splitting the encoded body on ampersands recovers the trimmed
entries, one per field. -/
lemma encode_form_split (fields : List (List Nat × List Nat))
    (h : ∀ kv ∈ fields, (∀ c ∈ kv.1, c ≠ 38 ∧ c ≠ 61) ∧ (∀ b ∈ kv.2, b < 256)) :
    fields ≠ [] →
    split_on_byte 38 (encode_form_bytes fields) =
      fields.map (fun kv => kv.1 ++ 61 :: urlencode kv.2) := by
  induction fields with
  | nil => intro hne; exact absurd rfl hne
  | cons f fs ih =>
    intro _
    obtain ⟨hkc, hvb⟩ := h f (List.mem_cons_self f fs)
    cases fs with
    | nil =>
      unfold encode_form_bytes
      rw [List.flatMap_cons]
      simp only [List.flatMap_nil, List.append_nil]
      rw [form_entry_shape, List.dropLast_concat]
      rw [split_on_byte_no_sep 38 _ (entry_no_amp f hkc hvb)]
      rfl
    | cons f2 fs2 =>
      unfold encode_form_bytes
      rw [List.flatMap_cons]
      have htail_ne : (f2 :: fs2).flatMap form_entry ≠ [] := by
        rw [List.flatMap_cons, form_entry_shape]
        simp
      rw [dropLast_append_left _ _ htail_ne]
      rw [form_entry_shape]
      rw [List.append_assoc, List.singleton_append]
      rw [split_on_byte_append 38 _ _ (entry_no_amp f hkc hvb)]
      rw [List.map_cons]
      congr 1
      exact ih (fun kv hkv => h kv (List.mem_cons_of_mem f hkv)) (by simp)

/-- The encoded body of a nonempty field list is nonempty. -/
lemma encode_form_bytes_ne_nil (f : List Nat × List Nat) (fs : List (List Nat × List Nat)) :
    encode_form_bytes (f :: fs) ≠ [] := by
  have hfe : (form_entry f).length = f.1.length + (urlencode f.2).length + 2 := by
    rw [form_entry_shape]
    simp
    omega
  intro hcontra
  have := congrArg List.length hcontra
  unfold encode_form_bytes at this
  rw [List.flatMap_cons] at this
  rw [List.length_dropLast] at this
  simp at this
  omega

/-- Claim C3 (counterexample): keys are emitted raw, so a key containing
an equals sign breaks the round trip; encoding the single field with key
bytes "a=b" and value "c" and splitting back yields the field ("a",
"b=c") instead of the original (activation.c line 1294 prints the key
unencoded). -/
theorem c3_round_trip_counterexample :
    spec_decode_form (encode_form_bytes [([97, 61, 98], [99])]) = [([97], [98, 61, 99])] := by
  rfl

/-- Claim C3 (amended): for every byte-level field collection of string
values whose keys contain neither the ampersand nor the equals sign (and
whose bytes are bytes, below 256), encoding under form-urlencoded and
then splitting on ampersands and first equals signs and percent-decoding
each value yields back exactly the original collection. -/
theorem c3_round_trip (fields : List (List Nat × List Nat))
    (h : ∀ kv ∈ fields, (∀ c ∈ kv.1, c ≠ 38 ∧ c ≠ 61) ∧ (∀ b ∈ kv.2, b < 256)) :
    spec_decode_form (encode_form_bytes fields) = fields := by
  cases fields with
  | nil => rfl
  | cons f fs =>
    unfold spec_decode_form
    rw [if_neg (encode_form_bytes_ne_nil f fs)]
    rw [encode_form_split (f :: fs) h (by simp)]
    rw [List.map_map]
    have hp : ∀ kv ∈ f :: fs,
        ((fun entry =>
            let kvp := split_first_on_byte 61 entry
            (kvp.1, pct_decode kvp.2)) ∘ (fun kv => kv.1 ++ 61 :: urlencode kv.2)) kv = kv := by
      intro kv hkv
      obtain ⟨hkc, hvb⟩ := h kv hkv
      simp only [Function.comp]
      rw [split_first_at kv.1 (urlencode kv.2) (fun c hc => (hkc c hc).2)]
      dsimp only
      have hdec := pct_decode_urlencode kv.2 hvb []
      rw [List.append_nil] at hdec
      rw [show pct_decode [] = [] from rfl, List.append_nil] at hdec
      rw [hdec]
    rw [List.map_congr_left hp]
    exact List.map_id _

/-- Claim C3 witness: the round trip applied to the single field with
key bytes "k" and value bytes "v&=" (the value's separators are escaped
and recovered). -/
theorem c3_round_trip_witness :
    (∀ kv ∈ [([107], [118, 38, 61])],
      (∀ c ∈ kv.1, c ≠ 38 ∧ c ≠ 61) ∧ (∀ b ∈ kv.2, b < 256)) ∧
    spec_decode_form (encode_form_bytes [([107], [118, 38, 61])]) = [([107], [118, 38, 61])] := by
  refine ⟨by decide, ?_⟩
  exact c3_round_trip [([107], [118, 38, 61])] (by decide)

/-- The urlencoded field loop aborts with UNSUPPORTED_FIELD_TYPE as soon
as any field value is not a string. -/
lemma build_urlencoded_raw_error (entries : List (String × Plist)) :
    (∃ kv ∈ entries, plist_is_string kv.2 = false) →
    build_urlencoded_raw entries = .error .unsupportedFieldType := by
  induction entries with
  | nil => intro h; simp at h
  | cons kv rest ih =>
    intro h
    obtain ⟨kv2, hmem, hns⟩ := h
    rw [List.mem_cons] at hmem
    unfold build_urlencoded_raw
    rcases hmem with rfl | hmem
    · cases hv : kv2.2 with
      | string s => rw [hv] at hns; simp [plist_is_string] at hns
      | boolean b => rw [show kv2 = (kv2.1, kv2.2) from rfl, hv]
      | integer n => rw [show kv2 = (kv2.1, kv2.2) from rfl, hv]
      | data d => rw [show kv2 = (kv2.1, kv2.2) from rfl, hv]
      | dict es => rw [show kv2 = (kv2.1, kv2.2) from rfl, hv]
    · cases hv : kv.2 with
      | string s =>
        rw [show kv = (kv.1, kv.2) from rfl, hv]
        rw [ih ⟨kv2, hmem, hns⟩]
        rfl
      | boolean b => rw [show kv = (kv.1, kv.2) from rfl, hv]
      | integer n => rw [show kv = (kv.1, kv.2) from rfl, hv]
      | data d => rw [show kv = (kv.1, kv.2) from rfl, hv]
      | dict es => rw [show kv = (kv.1, kv.2) from rfl, hv]

/-- Claim C4 (confirmed): a field collection with at least one non-string
value always fails to encode as form-urlencoded, with
UNSUPPORTED_FIELD_TYPE, while the same collection encodes successfully
under multipart-form and under a structured-document body (activation.c
lines 1273-1302, 1249-1271 and 1312-1322). -/
theorem c4_non_string_fields (fields : Plist)
    (h : ∃ kv ∈ dict_entries fields, plist_is_string kv.2 = false) :
    encode_request_body IdeviceActivationContentType.urlEncoded fields =
      .error .unsupportedFieldType ∧
    except_is_ok (encode_request_body IdeviceActivationContentType.multipartFormdata fields) = true ∧
    except_is_ok (encode_request_body IdeviceActivationContentType.plist fields) = true := by
  refine ⟨?_, rfl, rfl⟩
  unfold encode_request_body build_urlencoded_postdata
  rw [build_urlencoded_raw_error (dict_entries fields) h]
  rfl

/-- Claim C4 witness: the theorem applied to a collection holding one
string and one boolean value. -/
theorem c4_non_string_fields_witness :
    encode_request_body IdeviceActivationContentType.urlEncoded
        (.dict [(("a"), .string ("x")), (("b"), .boolean true)]) =
      .error .unsupportedFieldType ∧
    except_is_ok (encode_request_body IdeviceActivationContentType.multipartFormdata
        (.dict [(("a"), .string ("x")), (("b"), .boolean true)])) = true ∧
    except_is_ok (encode_request_body IdeviceActivationContentType.plist
        (.dict [(("a"), .string ("x")), (("b"), .boolean true)])) = true := by
  exact c4_non_string_fields (.dict [(("a"), .string ("x")), (("b"), .boolean true)])
    ⟨(("b"), .boolean true), by simp [dict_entries], rfl⟩

/-- A case-insensitive prefix of the value fixes each shorter lowered
prefix of the value. -/
lemma ci_starts_with_take (p v : List Char) (n : Nat) (hn : n ≤ p.length)
    (h : ci_starts_with p v = true) :
    (v.take n).map ascii_lower = (p.take n).map ascii_lower := by
  unfold ci_starts_with at h
  have h2 : (v.take p.length).map ascii_lower = p.map ascii_lower := eq_of_beq h
  have h3 := congrArg (fun l => l.take n) h2
  dsimp only at h3
  rw [← List.map_take, ← List.map_take, List.take_take, Nat.min_eq_left hn] at h3
  rw [h3, List.map_take]

/-- Two patterns whose lowered prefixes differ at some common length
cannot both be case-insensitive prefixes of one value. -/
lemma ci_disjoint (p q v : List Char) (n : Nat)
    (hnp : n ≤ p.length) (hnq : n ≤ q.length)
    (hne : (p.take n).map ascii_lower ≠ (q.take n).map ascii_lower)
    (hp : ci_starts_with p v = true) (hq : ci_starts_with q v = true) : False :=
  hne ((ci_starts_with_take p v n hnp hp).symm.trans (ci_starts_with_take q v n hnq hq))

/-- Skipping spaces leaves a value that does not start with one. -/
lemma dropWhile_head_ne (v : List Char) (hh : v.head? ≠ some ' ') :
    v.dropWhile (fun c => c = ' ') = v := by
  cases v with
  | nil => rfl
  | cons c rest =>
    have : c ≠ ' ' := by
      intro hc
      exact hh (by rw [hc]; rfl)
    rw [List.dropWhile_cons, decide_eq_false this]
    simp

/-- A CR-and-LF-free value is taken whole. -/
lemma takeWhile_no_crlf (v : List Char) (h : ∀ c ∈ v, c ≠ '\r' ∧ c ≠ '\n') :
    v.takeWhile (fun c => c ≠ '\n' && c ≠ '\r') = v := by
  induction v with
  | nil => rfl
  | cons c rest ih =>
    rw [List.takeWhile_cons]
    have hc := h c (List.mem_cons_self c rest)
    rw [decide_eq_true hc.2, decide_eq_true hc.1]
    simp only [Bool.and_self, if_pos]
    rw [ih (fun x hx => h x (List.mem_cons_of_mem c hx))]

/-- Claim C5 (confirmed): the header callback classifies a received
Content-Type header line by case-insensitive prefix of its value --
text/xml and application/xml give the plist dialect, application/x-buddyml
the BuddyML dialect, text/html the HTML dialect -- and any other value
leaves the content type unchanged (unknown on a fresh response); parsing
a response whose content type is unknown fails with
UNKNOWN_CONTENT_TYPE (activation.c lines 579-622 and 557-558). The
prefix tests are case-insensitive because the source compares with
strncasecmp. -/
theorem c5_content_type_classification :
    (∀ (prev : IdeviceActivationContentType) (v : List Char),
        (ci_starts_with (("text/xml").data) v = true ∨
         ci_starts_with (("application/xml").data) v = true) →
        classify_content_type prev v = .plist) ∧
    (∀ (prev : IdeviceActivationContentType) (v : List Char),
        ci_starts_with (("application/x-buddyml").data) v = true →
        classify_content_type prev v = .buddyml) ∧
    (∀ (prev : IdeviceActivationContentType) (v : List Char),
        ci_starts_with (("text/html").data) v = true →
        classify_content_type prev v = .html) ∧
    (∀ v : List Char,
        ci_starts_with (("text/xml").data) v = false →
        ci_starts_with (("application/xml").data) v = false →
        ci_starts_with (("application/x-buddyml").data) v = false →
        ci_starts_with (("text/html").data) v = false →
        classify_content_type IdeviceActivationContentType.unknown v =
          IdeviceActivationContentType.unknown) ∧
    (∀ (resp : Response) (ext : ExternalParse),
        resp.content_type = IdeviceActivationContentType.unknown →
        idevice_activation_parse_raw_response resp ext = .error .unknownContentType) ∧
    (∀ (resp : Response) (v : List Char),
        v ≠ [] → v.head? ≠ some ' ' → (∀ c ∈ v, c ≠ '\r' ∧ c ≠ '\n') →
        (idevice_activation_header_callback ((("Content-Type: ").data) ++ v) resp).content_type =
          classify_content_type resp.content_type v) := by
  refine ⟨?_, ?_, ?_, ?_, ?_, ?_⟩
  · intro prev v h
    rcases h with h | h
    · unfold classify_content_type
      rw [if_pos h]
    · have hf : ci_starts_with (("text/xml").data) v = false := by
        by_contra hc
        rw [Bool.not_eq_false] at hc
        exact ci_disjoint _ _ v 8 (by decide) (by decide) (by decide) hc h
      unfold classify_content_type
      rw [hf]
      rw [if_neg (by simp), if_pos h]
  · intro prev v h
    have hf1 : ci_starts_with (("text/xml").data) v = false := by
      by_contra hc
      rw [Bool.not_eq_false] at hc
      exact ci_disjoint _ _ v 8 (by decide) (by decide) (by decide) hc h
    have hf2 : ci_starts_with (("application/xml").data) v = false := by
      by_contra hc
      rw [Bool.not_eq_false] at hc
      exact ci_disjoint _ _ v 15 (by decide) (by decide) (by decide) hc h
    unfold classify_content_type
    rw [hf1, hf2]
    rw [if_neg (by simp), if_neg (by simp), if_pos h]
  · intro prev v h
    have hf1 : ci_starts_with (("text/xml").data) v = false := by
      by_contra hc
      rw [Bool.not_eq_false] at hc
      exact ci_disjoint _ _ v 8 (by decide) (by decide) (by decide) hc h
    have hf2 : ci_starts_with (("application/xml").data) v = false := by
      by_contra hc
      rw [Bool.not_eq_false] at hc
      exact ci_disjoint _ _ v 9 (by decide) (by decide) (by decide) hc h
    have hf3 : ci_starts_with (("application/x-buddyml").data) v = false := by
      by_contra hc
      rw [Bool.not_eq_false] at hc
      exact ci_disjoint _ _ v 9 (by decide) (by decide) (by decide) hc h
    unfold classify_content_type
    rw [hf1, hf2, hf3]
    rw [if_neg (by simp), if_neg (by simp), if_neg (by simp), if_pos h]
  · intro v h1 h2 h3 h4
    unfold classify_content_type
    rw [h1, h2, h3, h4]
    simp
  · intro resp ext hct
    unfold idevice_activation_parse_raw_response
    rw [hct]
  · intro resp v hne hhead hcrlf
    have hsplit : split_colon ((("Content-Type: ").data) ++ v) =
        some ((("Content-Type").data), ' ' :: v) := rfl
    unfold idevice_activation_header_callback
    rw [hsplit]
    dsimp only
    rw [List.dropWhile_cons]
    rw [show (decide (' ' = ' ')) = true from rfl]
    simp only [if_pos]
    rw [dropWhile_head_ne v hhead]
    cases v with
    | nil => exact absurd rfl hne
    | cons c rest =>
      dsimp only
      rw [takeWhile_no_crlf _ hcrlf]
      rw [show ci_starts_with (("Content-Type").data) (("Content-Type").data) = true from rfl]
      simp only [if_pos]

/-- Claim C5 witness: the classification applied to the spec's example
header values, the unknown-content parse failure on a fresh response,
and the header callback run on a complete BuddyML Content-Type line. -/
theorem c5_content_type_classification_witness :
    classify_content_type IdeviceActivationContentType.unknown
        (("application/x-buddyml; charset=utf-8").data) =
      IdeviceActivationContentType.buddyml ∧
    classify_content_type IdeviceActivationContentType.unknown (("text/xml").data) =
      IdeviceActivationContentType.plist ∧
    classify_content_type IdeviceActivationContentType.unknown (("application/xml").data) =
      IdeviceActivationContentType.plist ∧
    classify_content_type IdeviceActivationContentType.unknown (("text/html").data) =
      IdeviceActivationContentType.html ∧
    classify_content_type IdeviceActivationContentType.unknown (("application/json").data) =
      IdeviceActivationContentType.unknown ∧
    idevice_activation_parse_raw_response idevice_activation_response_new
        { body_plist := none, buddy_doc := none, html_doc := none, html_plist := fun _ => none } =
      .error .unknownContentType ∧
    (idevice_activation_header_callback
        ((("Content-Type: ").data) ++ (("application/x-buddyml; charset=utf-8").data))
        idevice_activation_response_new).content_type =
      IdeviceActivationContentType.buddyml := by
  obtain ⟨h1, h2, h3, h4, h5, h6⟩ := c5_content_type_classification
  refine ⟨h2 _ _ (by decide), h1 _ _ (Or.inl (by decide)), h1 _ _ (Or.inr (by decide)),
    h3 _ _ (by decide), h4 _ (by decide) (by decide) (by decide) (by decide), h5 _ _ rfl, ?_⟩
  rw [h6 _ _ (by decide) (by decide) (by decide)]
  exact h2 _ _ (by decide)

/-- Claim C7 (counterexample): a navigation-bar child of the root whose
title attribute is the empty string still triggers the error screen, but
the response's title stays unset instead of becoming the attribute's
(empty) text: an empty attribute has no text children, so the
xmlNodeListGetString call at activation.c line 251 returns NULL and the
strdup at line 253 never runs. The claim expects title = some "". -/
theorem c7_error_screen_counterexample :
    idevice_activation_parse_buddyml_response
        { idevice_activation_response_new with
            content_type := IdeviceActivationContentType.buddyml }
        (some (.elem ("xmlui") [] [.elem ("navigationBar") [(("title"), (""))] []])) =
      .ok { idevice_activation_response_new with
              content_type := IdeviceActivationContentType.buddyml
              has_errors := true } := by
  rfl

/-- Claim C7 (amended): for every BuddyML body whose document root has a
navigation-bar child carrying a nonempty title attribute, parsing sets
has_errors and the title to that attribute's text and stops: the result
is exactly the incoming response with those two fields changed, whatever
other well-formed content the body holds (activation.c lines 244-259
return before any further extraction); when the attribute text is empty,
has_errors is still set but the title is left unset. -/
theorem c7_error_screen (resp : Response) (root : XmlNode) (t : String) (ts : List String)
    (hct : resp.content_type = IdeviceActivationContentType.buddyml)
    (hq : nav_bar_title_values root = t :: ts)
    (hne : t ≠ ("")) :
    idevice_activation_parse_buddyml_response resp (some root) =
      .ok { resp with title := some t, has_errors := true } := by
  unfold idevice_activation_parse_buddyml_response
  rw [hct]
  rw [if_neg (by simp)]
  dsimp only
  simp only [hq]
  unfold attr_text
  rw [if_neg hne]

/-- Claim C7 witness: the amended theorem applied to a body that also
carries an acknowledgment marker and an input row; the error screen wins
and nothing else is extracted. -/
theorem c7_error_screen_witness :
    idevice_activation_parse_buddyml_response
        { idevice_activation_response_new with
            content_type := IdeviceActivationContentType.buddyml }
        (some (.elem ("xmlui") []
          [.elem ("navigationBar") [(("title"), ("Error Title"))] [],
           .elem ("clientInfo") [(("ack-received"), ("true"))] [],
           .elem ("page") [] [.elem ("editableTextRow") [(("id"), ("login"))] []]])) =
      .ok { idevice_activation_response_new with
              content_type := IdeviceActivationContentType.buddyml
              title := some ("Error Title")
              has_errors := true } := by
  exact c7_error_screen
    { idevice_activation_response_new with
        content_type := IdeviceActivationContentType.buddyml }
    (.elem ("xmlui") []
      [.elem ("navigationBar") [(("title"), ("Error Title"))] [],
       .elem ("clientInfo") [(("ack-received"), ("true"))] [],
       .elem ("page") [] [.elem ("editableTextRow") [(("id"), ("login"))] []]])
    ("Error Title") [] rfl rfl (by decide)

/-- A response reporting no error, no record, no acknowledgment and a
nonempty field set makes the tool's loop build a new request and
continue. -/
lemma session_round_continues (resp : Response) (inputs : String → String)
    (hhe : resp.has_errors = false) (hrec : resp.activation_record = none)
    (hack : resp.is_activation_ack = false) (hfs : plist_dict_get_size resp.fields ≠ 0) :
    session_round resp inputs = .nextRequest (collect_input_fields
      (idevice_activation_request_set_fields_from_response
        (idevice_activation_request_new .mobileActivation) resp)
      resp inputs (dict_entries resp.fields)) := by
  unfold session_round
  rw [hhe]
  rw [if_neg (by simp)]
  rw [hrec]
  dsimp only
  rw [hack]
  rw [if_neg (by simp), if_neg hfs]

/-- Against a transport whose every response continues the loop, the
tool's while(1) loop is still running after any number of rounds. -/
lemma run_loop_const (responses : Nat → Response) (inputs : String → String)
    (h : ∀ k, (responses k).has_errors = false ∧ (responses k).activation_record = none ∧
              (responses k).is_activation_ack = false ∧
              plist_dict_get_size (responses k).fields ≠ 0) :
    ∀ n, run_loop responses inputs n = .looping := by
  intro n
  induction n with
  | zero => rfl
  | succ n ih =>
    unfold run_loop
    rw [ih]
    dsimp only
    rw [session_round_continues _ _ (h n).1 (h n).2.1 (h n).2.2.1 (h n).2.2.2]

/-- Claim C8 (counterexample): with every round answering the same
single-field set (no record, no ack, no error), the tool's loop is still
running after one thousand rounds; the source's while(1) at
tools/ideviceactivation.c line 319 imposes no retry bound, so the loop
never terminates on such a transport, contradicting the claimed bounded
termination. -/
theorem c8_bounded_retry_counterexample :
    run_loop
      (fun _ => { idevice_activation_response_new with
                    fields := .dict [(("login"), .string (""))],
                    fields_require_input := .dict [(("login"), .boolean true)] })
      (fun _ => ("x")) 1000 = .looping := by
  exact run_loop_const _ _ (fun k => ⟨rfl, rfl, rfl, by decide⟩) 1000

/-- Claim C8 (amended): the loop does NOT terminate: starting from the
awaiting-input state, if every resubmitted request yields a response
whose field set equals the same nonempty S (no record, no ack, no
error), the tool resubmits forever — after every number of rounds the
loop is still running. The spec's own section 5 records the missing
bound as a latent risk and section 9 as unimplemented hardening. -/
theorem c8_unbounded_resubmission (S : Plist) (responses : Nat → Response)
    (inputs : String → String)
    (hS : plist_dict_get_size S ≠ 0)
    (hfields : ∀ k, (responses k).fields = S)
    (hhe : ∀ k, (responses k).has_errors = false)
    (hrec : ∀ k, (responses k).activation_record = none)
    (hack : ∀ k, (responses k).is_activation_ack = false) :
    ∀ n, run_loop responses inputs n = .looping := by
  exact run_loop_const responses inputs
    (fun k => ⟨hhe k, hrec k, hack k, by rw [hfields k]; exact hS⟩)

/-- Claim C8 witness: the amended theorem applied to a concrete constant
transport, three rounds in. -/
theorem c8_unbounded_resubmission_witness :
    plist_dict_get_size (.dict [(("login"), .string (""))]) ≠ 0 ∧
    run_loop
      (fun _ => { idevice_activation_response_new with
                    fields := .dict [(("login"), .string (""))],
                    fields_require_input := .dict [(("login"), .boolean true)] })
      (fun _ => ("x")) 3 = .looping := by
  refine ⟨by decide, ?_⟩
  exact c8_unbounded_resubmission (.dict [(("login"), .string (""))])
    (fun _ => { idevice_activation_response_new with
                  fields := .dict [(("login"), .string (""))],
                  fields_require_input := .dict [(("login"), .boolean true)] })
    (fun _ => ("x")) (by decide) (fun _ => rfl) (fun _ => rfl) (fun _ => rfl) (fun _ => rfl) 3

/-- send_request hands the caller's request object back untouched: no
code path of the function writes to it. -/
lemma send_request_returns_request (req : Request) (t : Transport) :
    (idevice_activation_send_request req t).1 = req := by
  unfold idevice_activation_send_request
  split
  · rfl
  · dsimp only
    split <;> rfl

/-- On every error return the caller's response out-pointer is never
assigned: the assignment sits after the parse on the success path. -/
lemma send_request_error_no_response (req : Request) (t : Transport)
    (h : (idevice_activation_send_request req t).2.2 ≠ .success) :
    (idevice_activation_send_request req t).2.1 = none := by
  unfold idevice_activation_send_request at h ⊢
  split at h
  · rfl
  · dsimp only at h ⊢
    split at h
    · rfl
    · exact absurd rfl h

/-- Claim C9 (confirmed): whenever send_request returns an error, the
request passed in is exactly as before the call — fields, url,
content_type and client_type included — and the caller's response output
pointer is not assigned (activation.c lines 1209-1370: the request is
only read, and the out-pointer is written at line 1356 after every error
return). -/
theorem c9_error_preserves_request (req : Request) (t : Transport)
    (h : (idevice_activation_send_request req t).2.2 ≠ .success) :
    (idevice_activation_send_request req t).1 = req ∧
    (idevice_activation_send_request req t).1.fields = req.fields ∧
    (idevice_activation_send_request req t).1.url = req.url ∧
    (idevice_activation_send_request req t).1.content_type = req.content_type ∧
    (idevice_activation_send_request req t).1.client_type = req.client_type ∧
    (idevice_activation_send_request req t).2.1 = none := by
  have h1 := send_request_returns_request req t
  exact ⟨h1, by rw [h1], by rw [h1], by rw [h1], by rw [h1],
    send_request_error_no_response req t h⟩

/-- Claim C9 witness: the theorem applied to a urlencoded request with a
boolean field, whose encoding fails with UNSUPPORTED_FIELD_TYPE. -/
theorem c9_error_preserves_request_witness :
    ((idevice_activation_send_request
        { client_type := .mobileActivation, content_type := .urlEncoded,
          url := idevice_activation_default_url, fields := .dict [(("b"), .boolean true)] }
        { body := "", header_lines := [],
          ext := { body_plist := none, buddy_doc := none, html_doc := none,
                   html_plist := fun _ => none } }).2.2 ≠ .success) ∧
    (idevice_activation_send_request
        { client_type := .mobileActivation, content_type := .urlEncoded,
          url := idevice_activation_default_url, fields := .dict [(("b"), .boolean true)] }
        { body := "", header_lines := [],
          ext := { body_plist := none, buddy_doc := none, html_doc := none,
                   html_plist := fun _ => none } }).2.1 = none := by
  refine ⟨by decide, ?_⟩
  exact (c9_error_preserves_request _ _ (by decide)).2.2.2.2.2

/-- A value found after an insertion is the inserted value or was
already present. -/
lemma mem_dict_insert (k : String) (v : Plist) (es : List (String × Plist)) :
    ∀ kv ∈ dict_insert k v es, kv.2 = v ∨ kv ∈ es := by
  induction es with
  | nil =>
    intro kv hkv
    unfold dict_insert at hkv
    rw [List.mem_singleton] at hkv
    subst hkv
    exact Or.inl rfl
  | cons e rest ih =>
    intro kv hkv
    unfold dict_insert at hkv
    split at hkv
    · rw [List.mem_cons] at hkv
      rcases hkv with rfl | hkv
      · exact Or.inl rfl
      · exact Or.inr (List.mem_cons_of_mem e hkv)
    · rw [List.mem_cons] at hkv
      rcases hkv with rfl | hkv
      · exact Or.inr (List.mem_cons_self e rest)
      · rcases ih kv hkv with h | h
        · exact Or.inl h
        · exact Or.inr (List.mem_cons_of_mem e h)

/-- Setting a string value preserves an all-string dict. -/
lemma set_item_all_strings (p : Plist) (k : String) (v : Plist)
    (hp : ∀ kv ∈ dict_entries p, plist_is_string kv.2 = true)
    (hv : plist_is_string v = true) :
    ∀ kv ∈ dict_entries (plist_dict_set_item p k v), plist_is_string kv.2 = true := by
  intro kv hkv
  cases p with
  | dict es =>
    unfold plist_dict_set_item dict_entries at hkv
    rcases mem_dict_insert k v es kv hkv with h | h
    · rw [h]; exact hv
    · exact hp kv h
  | string s => exact hp kv hkv
  | boolean b => exact hp kv hkv
  | integer n => exact hp kv hkv
  | data d => exact hp kv hkv


/-- Folding string insertions over an all-string dict keeps it
all-string. -/
lemma foldl_set_all_strings (es : List (String × Plist)) :
    ∀ acc : Plist, (∀ kv ∈ dict_entries acc, plist_is_string kv.2 = true) →
    (∀ kv ∈ es, plist_is_string kv.2 = true) →
    ∀ kv ∈ dict_entries (es.foldl (fun t kv => plist_dict_set_item t kv.1 kv.2) acc),
      plist_is_string kv.2 = true := by
  induction es with
  | nil => intro acc hacc _ kv hkv; exact hacc kv hkv
  | cons e rest ih =>
    intro acc hacc hes kv hkv
    rw [List.foldl_cons] at hkv
    exact ih (plist_dict_set_item acc e.1 e.2)
      (set_item_all_strings acc e.1 e.2 hacc (hes e (List.mem_cons_self e rest)))
      (fun x hx => hes x (List.mem_cons_of_mem e hx)) kv hkv

/-- Merging two all-string dicts yields an all-string dict. -/
lemma merge_all_strings (target source : Plist)
    (ht : ∀ kv ∈ dict_entries target, plist_is_string kv.2 = true)
    (hs : ∀ kv ∈ dict_entries source, plist_is_string kv.2 = true) :
    ∀ kv ∈ dict_entries (plist_dict_merge target source), plist_is_string kv.2 = true := by
  cases target with
  | dict tes =>
    cases source with
    | dict ses =>
      unfold plist_dict_merge
      dsimp only
      exact foldl_set_all_strings ses (.dict tes) ht hs
    | string s => exact ht
    | boolean b => exact ht
    | integer n => exact ht
    | data d => exact ht
  | string s => cases source <;> exact ht
  | boolean b => cases source <;> exact ht
  | integer n => cases source <;> exact ht
  | data d => cases source <;> exact ht

/-- The set_fields scan finds no non-string exactly when every value is
a string. -/
lemma has_non_string_false_iff (p : Plist) :
    has_non_string_field p = false ↔ ∀ kv ∈ dict_entries p, plist_is_string kv.2 = true := by
  unfold has_non_string_field
  rw [List.any_eq_false]
  constructor
  · intro h kv hkv
    have := h kv hkv
    simpa using this
  · intro h kv hkv
    simpa using h kv hkv


/-- set_fields preserves the all-string invariant of urlencoded
requests: a non-string batch first widens the content type. -/
lemma set_fields_all_strings (r : Request) (f : Plist)
    (ih : r.content_type = IdeviceActivationContentType.urlEncoded →
          ∀ kv ∈ dict_entries r.fields, plist_is_string kv.2 = true) :
    (idevice_activation_request_set_fields r f).content_type =
      IdeviceActivationContentType.urlEncoded →
    ∀ kv ∈ dict_entries (idevice_activation_request_set_fields r f).fields,
      plist_is_string kv.2 = true := by
  intro hct
  unfold idevice_activation_request_set_fields at hct ⊢
  by_cases hcond : (decide (r.content_type = IdeviceActivationContentType.urlEncoded) &&
      has_non_string_field f) = true
  · rw [if_pos hcond] at hct
    simp at hct
  · rw [if_neg hcond] at hct ⊢
    dsimp only at hct ⊢
    have hns : has_non_string_field f = false := by
      rcases Bool.eq_false_or_eq_true (has_non_string_field f) with h | h
      · exact absurd (by rw [decide_eq_true hct, h]; rfl) hcond
      · exact h
    exact merge_all_strings r.fields f (ih hct) ((has_non_string_false_iff f).mp hns)

/-- Every publicly constructible request that still carries the
urlencoded content type holds only string field values. -/
lemma reachable_urlencoded_all_strings (r : Request) (hr : ReachableRequest r) :
    r.content_type = IdeviceActivationContentType.urlEncoded →
    ∀ kv ∈ dict_entries r.fields, plist_is_string kv.2 = true := by
  induction hr with
  | new ct => intro _ kv hkv; simp [idevice_activation_request_new, dict_entries] at hkv
  | new_from_lockdownd ct fields => intro hct; simp [idevice_activation_request_new_from_lockdownd] at hct
  | drm_handshake ct => intro hct; simp [idevice_activation_drm_handshake_request_new] at hct
  | set_field r k v hr2 ih =>
    intro hct kv hkv
    unfold idevice_activation_request_set_field at hct hkv
    dsimp only at hct hkv
    exact set_item_all_strings r.fields k (.string v) (ih hct) rfl kv hkv
  | set_fields r f hr2 ih => exact set_fields_all_strings r f ih
  | set_fields_from_response r resp hr2 ih =>
    exact set_fields_all_strings r resp.fields ih
  | set_url r u hr2 ih =>
    intro hct kv hkv
    unfold idevice_activation_request_set_url at hct hkv
    dsimp only at hct hkv
    exact ih hct kv hkv

/-- The urlencoded field loop succeeds on an all-string collection. -/
lemma build_urlencoded_raw_ok (entries : List (String × Plist))
    (h : ∀ kv ∈ entries, plist_is_string kv.2 = true) :
    ∃ l, build_urlencoded_raw entries = .ok l := by
  induction entries with
  | nil => exact ⟨[], rfl⟩
  | cons kv rest ih =>
    obtain ⟨tl, htl⟩ := ih (fun x hx => h x (List.mem_cons_of_mem kv hx))
    have hstr := h kv (List.mem_cons_self kv rest)
    cases hv : kv.2 with
    | string s =>
      refine ⟨str_bytes kv.1 ++ 61 :: urlencode (str_bytes s) ++ 38 :: tl, ?_⟩
      unfold build_urlencoded_raw
      rw [show kv = (kv.1, kv.2) from rfl, hv]
      rw [htl]
      rfl
    | boolean b => rw [hv] at hstr; simp [plist_is_string] at hstr
    | integer n => rw [hv] at hstr; simp [plist_is_string] at hstr
    | data d => rw [hv] at hstr; simp [plist_is_string] at hstr
    | dict es => rw [hv] at hstr; simp [plist_is_string] at hstr

/-- Claim C10 (confirmed): idevice_activation_request_set_fields, given
a collection with a non-string value while the request is
form-urlencoded, switches the content type to multipart before merging
(activation.c lines 909-923), and consequently the urlencoded encoder's
UNSUPPORTED_FIELD_TYPE branch is unreachable for every request built
through the public constructors and setters. -/
theorem c10_urlencoded_requests_all_strings :
    (∀ (r : Request) (f : Plist),
        r.content_type = IdeviceActivationContentType.urlEncoded →
        has_non_string_field f = true →
        (idevice_activation_request_set_fields r f).content_type =
          IdeviceActivationContentType.multipartFormdata ∧
        (idevice_activation_request_set_fields r f).fields =
          plist_dict_merge r.fields f) ∧
    (∀ r : Request, ReachableRequest r →
        encode_request_body r.content_type r.fields ≠ .error .unsupportedFieldType) := by
  constructor
  · intro r f hct hns
    unfold idevice_activation_request_set_fields
    rw [if_pos (by rw [decide_eq_true hct, hns]; rfl)]
    exact ⟨rfl, rfl⟩
  · intro r hr
    cases hct : r.content_type with
    | urlEncoded =>
      obtain ⟨l, hl⟩ := build_urlencoded_raw_ok (dict_entries r.fields)
        (reachable_urlencoded_all_strings r hr hct)
      unfold encode_request_body build_urlencoded_postdata
      rw [hl]
      simp [Except.map]
    | multipartFormdata => unfold encode_request_body; simp
    | plist => unfold encode_request_body; simp
    | html => unfold encode_request_body; simp
    | buddyml => unfold encode_request_body; simp
    | unknown => unfold encode_request_body; simp

/-- Claim C10 witness: adding a boolean field to a fresh (urlencoded)
request switches it to multipart, and its encoding no longer hits the
unsupported-type branch. -/
theorem c10_urlencoded_requests_all_strings_witness :
    ((idevice_activation_request_set_fields
        (idevice_activation_request_new .mobileActivation)
        (.dict [(("d"), .boolean true)])).content_type =
      IdeviceActivationContentType.multipartFormdata ∧
     (idevice_activation_request_set_fields
        (idevice_activation_request_new .mobileActivation)
        (.dict [(("d"), .boolean true)])).fields =
      plist_dict_merge (idevice_activation_request_new .mobileActivation).fields
        (.dict [(("d"), .boolean true)])) ∧
    encode_request_body
        (idevice_activation_request_set_fields
          (idevice_activation_request_new .mobileActivation)
          (.dict [(("d"), .boolean true)])).content_type
        (idevice_activation_request_set_fields
          (idevice_activation_request_new .mobileActivation)
          (.dict [(("d"), .boolean true)])).fields ≠
      .error .unsupportedFieldType := by
  refine ⟨c10_urlencoded_requests_all_strings.1
    (idevice_activation_request_new .mobileActivation)
    (.dict [(("d"), .boolean true)]) rfl rfl, ?_⟩
  exact c10_urlencoded_requests_all_strings.2
    (idevice_activation_request_set_fields
      (idevice_activation_request_new .mobileActivation)
      (.dict [(("d"), .boolean true)]))
    (ReachableRequest.set_fields _ _ (ReachableRequest.new _))
